import Mathlib

/-!
Verification of the feed-registry and site-configuration core of
univac-1/ai-info-rss-feed.

Embedded source files:
  * src/resources/feed-info-list.ts  (FeedInfo, createFeedInfoList, FEED_INFO_LIST)
  * src/common/constants.ts          (the default-exported configuration object)
-/

/-- Embedding of the TypeScript interface FeedInfo.  In the source, url has the
template-literal type ValidUrl; that constraint is purely compile-time and has
no runtime representation, so at run time both fields are plain strings. -/
structure FeedInfo where
  label : String
  url : String
deriving Repr, DecidableEq

/-- Embedding of createFeedInfoList (feed-info-list.ts lines 10-21).  The body
iterates over the tuples in order and pushes one record per tuple onto a fresh
array; that loop is exactly List.map. -/
def createFeedInfoList (feedInfoTuples : List (String × String)) : List FeedInfo :=
  feedInfoTuples.map fun t => { label := t.1, url := t.2 }

/-- The ConfigurationError named by the specification.  It does not occur
anywhere in the source; it is declared here only so that claims about
construction-time failure can be stated. -/
inductive ConfigurationError where
  | configurationError : String → ConfigurationError
deriving Repr, DecidableEq

/-- Run-level embedding of a call to createFeedInfoList: a TypeScript function
call either returns a value or throws.  The body of createFeedInfoList contains
no throw statement and calls nothing that throws, so evaluation always returns
normally with the full list. -/
def createFeedInfoListRun (feedInfoTuples : List (String × String)) :
    Except ConfigurationError (List FeedInfo) :=
  Except.ok (createFeedInfoList feedInfoTuples)

/-- The url-shape pattern from the specification, over the characters after
the scheme separator.  seekDot cs is true iff some character of cs is a dot
that is preceded only by non-slash characters (within cs) and is immediately
followed by a non-slash character; this is the remainder of
[^/]+\.[^/]+/?.*$ once at least one host character has been consumed. -/
def seekDot : List Char → Bool
  | [] => false
  | ['.'] => false
  | '/' :: _ => false
  | '.' :: d :: _ => decide (d ≠ '/')
  | _ :: rest => seekDot rest

/-- After the scheme, the pattern [^/]+\.[^/]+/?.*$ requires a first non-slash
character and then a dot with a non-slash successor before the first slash. -/
def matchesAfterScheme : List Char → Bool
  | [] => false
  | c :: rest => if c = '/' then false else seekDot rest

/-- Decides the specification pattern (https?)://[^/]+\.[^/]+/?.*$ anchored at
both ends: an http or https scheme, then a dotted host as above. -/
def matchesValidUrlChars : List Char → Bool
  | 'h' :: 't' :: 't' :: 'p' :: 's' :: ':' :: '/' :: '/' :: rest => matchesAfterScheme rest
  | 'h' :: 't' :: 't' :: 'p' :: ':' :: '/' :: '/' :: rest => matchesAfterScheme rest
  | _ => false

/-- Whether a url string matches the absolute-http(s) dotted-host pattern of
the specification. -/
def matchesValidUrl (s : String) : Bool :=
  matchesValidUrlChars s.toList

/-- Embedding of the exported constant FEED_INFO_LIST (feed-info-list.ts
lines 28-41): createFeedInfoList applied to the eleven literal tuples. -/
def FEED_INFO_LIST : List FeedInfo :=
  createFeedInfoList
    [("ITmedia AI+", "https://rss.itmedia.co.jp/rss/2.0/aiplus.xml"),
     ("Zenn（機械学習タグ）", "https://zenn.dev/topics/機械学習/feed"),
     ("Zenn（AIタグ）", "https://zenn.dev/topics/ai/feed"),
     ("Zenn（生成AIタグ）", "https://zenn.dev/topics/生成ai/feed"),
     ("Zenn（DLタグ）", "https://zenn.dev/topics/deeplearning/feed"),
     ("Zenn（LLMタグ）", "https://zenn.dev/topics/llm/feed"),
     ("Qiita（機械学習タグ）", "https://qiita.com/tags/機械学習/feed"),
     ("Qiita（AIタグ）", "https://qiita.com/tags/AI/feed"),
     ("Qiita（生成AIタグ）", "https://qiita.com/tags/生成AI/feed"),
     ("Qiita（DLタグ）", "https://qiita.com/tags/DL/feed"),
     ("Qiita（LLMタグ）", "https://qiita.com/tags/LLM/feed")]

/-- The three output feed URLs of the configuration object. -/
structure FeedUrls where
  atom : String
  rss : String
  json : String
deriving Repr, DecidableEq

/-- Shape of the default export of constants.ts. -/
structure SiteConfig where
  siteUrl : String
  siteUrlStem : String
  siteTitle : String
  siteDescription : String
  feedTitle : String
  feedDescription : String
  feedLanguage : String
  feedCopyright : String
  feedGenerator : String
  feedUrls : FeedUrls
  author : String
  gitHubUserUrl : String
  gitHubRepositoryUrl : String
  xUserUrl : String
  googleSiteVerification : String
  globalSiteTagKey : String
  requestUserAgent : String
  howToAddSiteLink : String
  feedFetchConcurrency : Nat
  feedOgFetchConcurrency : Nat
  aggregateFeedDurationInHours : Nat
  maxFeedDescriptionLength : Nat
  maxFeedContentLength : Nat
  processImageConcurrency : Nat
  eleventyFetchConcurrency : Nat
  fetchedFeedCacheDurationInHours : Nat
  fetchedOgCacheDurationInHours : Nat
deriving Repr, DecidableEq

/-- constants.ts line 1: the site URL stem. -/
def siteUrlStem : String :=
  "https://univac-1.github.io/ai-info-rss-feed"

/-- constants.ts line 2: the canonical site URL, the stem with a trailing
slash appended by the template literal. -/
def siteUrl : String :=
  siteUrlStem ++ "/"

/-- Embedding of the default export of constants.ts.  Template literals are
string concatenation; aggregateFeedDurationInHours is written 8 * 24 in the
source and is kept as that expression here. -/
def constants : SiteConfig :=
  { siteUrl := siteUrl
    siteUrlStem := siteUrlStem
    siteTitle := "AI関連情報RSS"
    siteDescription := "AI関連情報の更新をまとめたRSSフィードを配信しています。記事を読んでAI技術の最新動向や質の高い技術情報を得られることを目的としています。"
    feedTitle := "AI関連情報RSS"
    feedDescription := "AI関連情報の更新をまとめたRSSフィード"
    feedLanguage := "ja"
    feedCopyright := "univac-1/ai-info-rss-feed"
    feedGenerator := "univac-1/ai-info-rss-feed"
    feedUrls :=
      { atom := siteUrl ++ "feeds/atom.xml"
        rss := siteUrl ++ "feeds/rss.xml"
        json := siteUrl ++ "feeds/feed.json" }
    author := "univac-1"
    gitHubUserUrl := "https://github.com/univac-1/"
    gitHubRepositoryUrl := "https://github.com/univac-1/ai-info-rss-feed/"
    xUserUrl := "https://x.com/univac-1"
    googleSiteVerification := "GPLvXv8kYtLMW912ZS54DKFEZL6ruOrjOFLdHVTo37o"
    globalSiteTagKey := "G-CNNNTL0NB3"
    requestUserAgent := "facebookexternalhit/1.1; univac-1/ai-info-rss-feed"
    howToAddSiteLink := "https://github.com/univac-1/ai-info-rss-feed#%E3%82%B5%E3%82%A4%E3%83%88%E3%81%AE%E8%BF%BD%E5%8A%A0%E6%96%B9%E6%B3%95"
    feedFetchConcurrency := 50
    feedOgFetchConcurrency := 20
    aggregateFeedDurationInHours := 8 * 24
    maxFeedDescriptionLength := 200
    maxFeedContentLength := 500
    processImageConcurrency := 50
    eleventyFetchConcurrency := 50
    fetchedFeedCacheDurationInHours := 1
    fetchedOgCacheDurationInHours := 24 }

/-- C8: createFeedInfoList is total and never throws, for any input list of
(label, url) string tuples: its run-level semantics always returns the full
mapped list, performing no runtime validation of URL shape or of label
uniqueness. -/
theorem c8_total_no_runtime_validation (ts : List (String × String)) :
    createFeedInfoListRun ts = Except.ok (ts.map fun t => { label := t.1, url := t.2 }) :=
  rfl

/-- C9: the aggregation window tunable aggregateFeedDurationInHours equals
exactly 192, computed as 8 * 24 in the source. -/
theorem c9_aggregate_duration :
    constants.aggregateFeedDurationInHours = 192 ∧
    constants.aggregateFeedDurationInHours = 8 * 24 := by
  constructor <;> rfl

/-- C1 counterexample: the claim that createFeedInfoList fails with a
ConfigurationError on any input containing a url that does not match the
pattern is false: at the concrete input [("bad", "not-a-url")] the url does
not match, yet construction returns ok with the full list and no error. -/
theorem c1_counterexample :
    ¬ (∀ ts : List (String × String),
        (∃ t ∈ ts, matchesValidUrl t.2 = false) →
        ∃ e, createFeedInfoListRun ts = Except.error e) := by
  intro h
  obtain ⟨e, he⟩ := h [("bad", "not-a-url")]
    ⟨("bad", "not-a-url"), by simp, by decide⟩
  exact Except.noConfusion he

/-- C1 amended: createFeedInfoList performs no runtime URL validation — the
url-shape constraint is compile-time only — so for every input list containing
an entry whose url does not match the pattern, construction still succeeds,
raising no ConfigurationError and returning the full (not partial) list. -/
theorem c1_no_url_validation (ts : List (String × String))
    (h : ∃ t ∈ ts, matchesValidUrl t.2 = false) :
    createFeedInfoListRun ts = Except.ok (createFeedInfoList ts) ∧
    (createFeedInfoList ts).length = ts.length := by
  refine ⟨rfl, ?_⟩
  simp [createFeedInfoList]

/-- C1 witness: the amended theorem applied at the concrete invalid input. -/
theorem c1_no_url_validation_witness :
    createFeedInfoListRun [("bad", "not-a-url")] =
      Except.ok (createFeedInfoList [("bad", "not-a-url")]) ∧
    (createFeedInfoList [("bad", "not-a-url")]).length =
      ([("bad", "not-a-url")] : List (String × String)).length :=
  c1_no_url_validation [("bad", "not-a-url")]
    ⟨("bad", "not-a-url"), by simp, by decide⟩

/-- C2: createFeedInfoList maps each input tuple to the record with the same
label and url, preserving length and order (the i-th output is built from the
i-th input); on the two-entry sample list it yields exactly those two records
in order. -/
theorem c2_order_preserving :
    (∀ ts : List (String × String),
        createFeedInfoList ts = ts.map fun t => { label := t.1, url := t.2 }) ∧
    (∀ ts : List (String × String), (createFeedInfoList ts).length = ts.length) ∧
    (∀ (ts : List (String × String)) (i : Nat),
        (createFeedInfoList ts).get? i =
          (ts.get? i).map fun t => { label := t.1, url := t.2 }) ∧
    createFeedInfoList
        [("ITmedia AI+", "https://rss.itmedia.co.jp/rss/2.0/aiplus.xml"),
         ("Zenn（AIタグ）", "https://zenn.dev/topics/ai/feed")] =
      [{ label := "ITmedia AI+", url := "https://rss.itmedia.co.jp/rss/2.0/aiplus.xml" },
       { label := "Zenn（AIタグ）", url := "https://zenn.dev/topics/ai/feed" }] := by
  refine ⟨fun ts => rfl, fun ts => by simp [createFeedInfoList], fun ts i => ?_, rfl⟩
  simp [createFeedInfoList]

/-- C3: every entry of the concrete exported registry FEED_INFO_LIST has a url
matching the absolute-http(s) dotted-host pattern. -/
theorem c3_all_registry_urls_valid :
    ∀ f ∈ FEED_INFO_LIST, matchesValidUrl f.url = true := by
  decide

/-- C3 witness: the theorem applied to the first registry entry. -/
theorem c3_all_registry_urls_valid_witness :
    matchesValidUrl
      (FeedInfo.url
        { label := "ITmedia AI+",
          url := "https://rss.itmedia.co.jp/rss/2.0/aiplus.xml" }) = true :=
  c3_all_registry_urls_valid
    { label := "ITmedia AI+", url := "https://rss.itmedia.co.jp/rss/2.0/aiplus.xml" }
    (by decide)

/-- C4: every numeric tunable of the site configuration object is a strictly
positive integer. -/
theorem c4_tunables_positive :
    0 < constants.feedFetchConcurrency ∧
    0 < constants.feedOgFetchConcurrency ∧
    0 < constants.aggregateFeedDurationInHours ∧
    0 < constants.maxFeedDescriptionLength ∧
    0 < constants.maxFeedContentLength ∧
    0 < constants.processImageConcurrency ∧
    0 < constants.eleventyFetchConcurrency ∧
    0 < constants.fetchedFeedCacheDurationInHours ∧
    0 < constants.fetchedOgCacheDurationInHours := by
  decide

/-- C5: each of the three output feed URLs is exactly the canonical site URL
concatenated with "feeds/" and the per-format file name. -/
theorem c5_feed_urls :
    constants.feedUrls.atom = constants.siteUrl ++ "feeds/" ++ "atom.xml" ∧
    constants.feedUrls.rss = constants.siteUrl ++ "feeds/" ++ "rss.xml" ∧
    constants.feedUrls.json = constants.siteUrl ++ "feeds/" ++ "feed.json" := by
  refine ⟨?_, ?_, ?_⟩ <;> decide

/-- C6: label uniqueness is not enforced by registry construction: on any
input in which two distinct positions carry the same label, createFeedInfoList
raises no error and returns all entries, duplicates included. -/
theorem c6_duplicate_labels_accepted (ts : List (String × String))
    (i j : Nat) (hne : i ≠ j) (hi : i < ts.length) (hj : j < ts.length)
    (hlab : (ts.get ⟨i, hi⟩).1 = (ts.get ⟨j, hj⟩).1) :
    createFeedInfoListRun ts = Except.ok (createFeedInfoList ts) ∧
    (createFeedInfoList ts).length = ts.length := by
  refine ⟨rfl, ?_⟩
  simp [createFeedInfoList]

/-- C6 witness: the theorem applied at a concrete two-entry input whose
entries share the label "a". -/
theorem c6_duplicate_labels_accepted_witness :
    createFeedInfoListRun [("a", "https://x.y/1"), ("a", "https://x.y/2")] =
      Except.ok (createFeedInfoList [("a", "https://x.y/1"), ("a", "https://x.y/2")]) ∧
    (createFeedInfoList [("a", "https://x.y/1"), ("a", "https://x.y/2")]).length =
      ([("a", "https://x.y/1"), ("a", "https://x.y/2")] : List (String × String)).length :=
  c6_duplicate_labels_accepted
    [("a", "https://x.y/1"), ("a", "https://x.y/2")]
    0 1 (by decide) (by decide) (by decide) (by decide)

/-- C7: registry construction is deterministic: equal input tuple lists give
equal outputs, both as the returned list and at run level; the embedding of
createFeedInfoList as a pure function reflects that it reads and writes no
state outside the returned list. -/
theorem c7_deterministic (ts1 ts2 : List (String × String)) (h : ts1 = ts2) :
    createFeedInfoList ts1 = createFeedInfoList ts2 ∧
    createFeedInfoListRun ts1 = createFeedInfoListRun ts2 := by
  subst h
  exact ⟨rfl, rfl⟩

/-- C7 witness: the theorem applied at a concrete pair of equal inputs. -/
theorem c7_deterministic_witness :
    createFeedInfoList [("a", "https://x.y/")] = createFeedInfoList [("a", "https://x.y/")] ∧
    createFeedInfoListRun [("a", "https://x.y/")] =
      createFeedInfoListRun [("a", "https://x.y/")] :=
  c7_deterministic [("a", "https://x.y/")] [("a", "https://x.y/")] rfl

/-- C10: the canonical site URL is the stem plus a trailing slash, and each of
the three feed URLs extends the canonical site URL by a nonempty suffix, so it
has the site URL as a proper prefix. -/
theorem c10_site_url_prefix :
    constants.siteUrl = siteUrlStem ++ "/" ∧
    (∃ r, r ≠ "" ∧ constants.feedUrls.atom = constants.siteUrl ++ r) ∧
    (∃ r, r ≠ "" ∧ constants.feedUrls.rss = constants.siteUrl ++ r) ∧
    (∃ r, r ≠ "" ∧ constants.feedUrls.json = constants.siteUrl ++ r) := by
  refine ⟨rfl, ⟨"feeds/atom.xml", by decide, rfl⟩,
    ⟨"feeds/rss.xml", by decide, rfl⟩, ⟨"feeds/feed.json", by decide, rfl⟩⟩
